import Mathlib

/-!
Verification of the two monitoring utilities of this repository:
`check_okcomputer_health_page.py` (health-check poller) and `sendgraph.py`
(alert-email composer).  The Python code is shallowly embedded: pure string
building and branching are translated into executable Lean functions, the
network and the process boundary are made explicit (the transport outcome is
an input, the printed line plus exit code — or an uncaught exception — is the
output).  Python values decoded from JSON are modelled by the inductive
`Json`; `json.loads` itself is not re-implemented, so a response body is
carried as the raw string together with the outcome that `json.loads` had on
it.
-/

/-- A Python value decoded from JSON by `simplejson.loads`: `None`, booleans,
numbers (modelled as integers; floats are out of scope), strings, lists and
dicts.  A `obj` models a Python dict with pairwise distinct keys (as produced
by the JSON decoder), in iteration order. -/
inductive Json where
  | null : Json
  | bool (b : Bool) : Json
  | num (n : Int) : Json
  | str (s : String) : Json
  | arr (elems : List Json) : Json
  | obj (fields : List (String × Json)) : Json

mutual

/-- Python 2 `repr` of a decoded JSON value (ASCII approximation: the `u`
prefix that `repr` puts on unicode strings is dropped, as no claim involves a
composite or non-ASCII message). -/
def pyRepr : Json → String
  | Json.null => "None"
  | Json.bool true => "True"
  | Json.bool false => "False"
  | Json.num n => toString n
  | Json.str s => "\x27" ++ s ++ "\x27"
  | Json.arr l => "[" ++ pyReprSeq l ++ "]"
  | Json.obj l => "\x7b" ++ pyReprPairs l ++ "\x7d"

/-- Comma-joined `repr`s of list elements. -/
def pyReprSeq : List Json → String
  | [] => ""
  | [x] => pyRepr x
  | x :: y :: xs => pyRepr x ++ ", " ++ pyReprSeq (y :: xs)

/-- Comma-joined `key: value` `repr`s of dict entries. -/
def pyReprPairs : List (String × Json) → String
  | [] => ""
  | [(k, v)] => pyRepr (Json.str k) ++ ": " ++ pyRepr v
  | (k, v) :: y :: xs => pyRepr (Json.str k) ++ ": " ++ pyRepr v ++ ", " ++ pyReprPairs (y :: xs)

end

/-- Python 2 `str` of a decoded JSON value, as used by `"%s" % value`:
the contents for a string, `repr` otherwise. -/
def pyStr : Json → String
  | Json.str s => s
  | v => pyRepr v

/-- Python equality test `value == False`, the aggregation test at line 159 of
`check_okcomputer_health_page.py`: in Python, `False == False` and
`0 == False` hold, while every other decoded JSON value (including `None`,
strings, non-zero numbers, lists and dicts) compares unequal to `False`. -/
def pyEqFalse : Json → Bool
  | Json.bool b => !b
  | Json.num n => n == 0
  | _ => false

/-- The `Check` class of `check_okcomputer_health_page.py`: name, message and
success as stored by `__init__` (message and success keep whatever decoded
JSON value the response held). -/
structure Check where
  name : String
  message : Json
  success : Json

/-- `Check.__str__`: `"%s : {message: %s, success: %s}"` applied to name,
message and success. -/
def Check.str (c : Check) : String :=
  c.name ++ " : \x7bmessage: " ++ pyStr c.message ++ ", success: " ++ pyStr c.success ++ "\x7d"

/-- The argument dictionary produced by `parse_args`, with its default
values. -/
structure Args where
  hostname : String := "localhost"
  port : Int := 80
  ssl : Bool := false
  url : String := "/health_checks"
  excludeList : List String := [ "stub"]

/-- The defaults of `parse_args` (no command-line options given). -/
def defaultArgs : Args := {}

/-- One recognised command-line option with its argument, as delivered by
`getopt`.  `-h`/`--help` prints the usage text and exits 3 before `main`
runs, and a `getopt` error does the same; both are outside the embedded
fragment, as is the `ValueError` that `int(arg)` would raise for a
non-numeric `-p` argument. -/
inductive CliOpt where
  | hostname (a : String)
  | port (a : Int)
  | ssl
  | urlPath (a : String)
  | exclude (a : String)

/-- The body of the option loop of `parse_args`: one option updating the
argument dictionary. -/
def applyOpt (d : Args) : CliOpt → Args
  | CliOpt.hostname a => { d with hostname := a }
  | CliOpt.port a => { d with port := a }
  | CliOpt.ssl => { d with ssl := true }
  | CliOpt.urlPath a => { d with url := a }
  | CliOpt.exclude a => { d with excludeList := d.excludeList ++ [a] }

/-- `parse_args`: fold the recognised options over the default dictionary. -/
def parse_args (opts : List CliOpt) : Args :=
  opts.foldl applyOpt defaultArgs

/-- The URL built at lines 128-132:
`("https://"|"http://") + "%s:%d%s" % (hostname, port, url)`. -/
def build_url (args : Args) : String :=
  (if args.ssl then "https://" else "http://")
    ++ args.hostname ++ ":" ++ toString args.port ++ args.url

/-- The loop at lines 158-160 of `__main__`, together with the Python
exceptions it can raise.  For each `(checkName, valueDict)` item of the
response dict: subscripting a non-dict value raises `TypeError`; a dict
without a `"success"` key raises `KeyError`; when `valueDict["success"] ==
False` the check (with `valueDict["message"]`, raising `KeyError` when
missing) is appended to `badList`. -/
def collectBad : List (String × Json) → Except String (List Check)
  | [] => Except.ok []
  | (n, v) :: rest =>
    match v with
    | Json.obj fields =>
      match fields.lookup "success" with
      | none => Except.error "KeyError: \x27success\x27"
      | some s =>
        if pyEqFalse s then
          match fields.lookup "message" with
          | none => Except.error "KeyError: \x27message\x27"
          | some m => Except.map (fun l => Check.mk n m s :: l) (collectBad rest)
        else collectBad rest
    | _ => Except.error "TypeError: check value is not subscriptable by string"

/-- The spec's derived value `failingChecks`: the checks of the report whose
`success` field is the boolean `false` (with their `message` field; on
well-formed reports this is exactly what the aggregation loop collects). -/
def failingChecks : List (String × Json) → List Check
  | [] => []
  | (n, v) :: rest =>
    match v with
    | Json.obj fields =>
      match fields.lookup "success", fields.lookup "message" with
      | some (Json.bool false), some m => Check.mk n m (Json.bool false) :: failingChecks rest
      | _, _ => failingChecks rest
    | _ => failingChecks rest

/-- What the aggregation loop actually collects whenever it finishes without
raising: the checks whose `success` value compares Python-equal to `False`. -/
def pyBadList : List (String × Json) → List Check
  | [] => []
  | (n, v) :: rest =>
    match v with
    | Json.obj fields =>
      match fields.lookup "success" with
      | none => pyBadList rest
      | some s =>
        if pyEqFalse s then
          match fields.lookup "message" with
          | none => pyBadList rest
          | some m => Check.mk n m s :: pyBadList rest
        else pyBadList rest
    | _ => pyBadList rest

/-- The CRITICAL line built at lines 166-168: the fixed prefix followed by
`", " + str(check)` for every collected check, in encounter order. -/
def criticalMsg (bad : List Check) : String :=
  bad.foldl (fun m c => m ++ ", " ++ c.str) "CRITICAL: The following checks are failing"

/-- A check entry that matches the documented response format: a dict value
whose `"success"` key holds a boolean and whose `"message"` key is present. -/
def wellFormedItem : String × Json → Bool
  | (_, Json.obj fields) =>
    (match fields.lookup "success" with
      | some (Json.bool _) => true
      | _ => false)
    && (fields.lookup "message").isSome
  | _ => false

/-- The outcome of the transport step of `__main__`: either `c.perform()`
raised `pycurl.error`, or a response arrived with an HTTP code and a body.
The body is carried as the raw string together with the outcome `json.loads`
has on it (`Except.error ()` standing for the `ValueError` of a non-JSON
body); the parser itself is not re-implemented. -/
inductive TransportResult where
  | curlError
  | response (httpCode : Nat) (rawBody : String) (parsed : Except Unit Json)

/-- The observable end of one run of `__main__`: the printed lines and the
`sys.exit` code, or an uncaught Python exception terminating the process. -/
inductive MainResult where
  | exits (stdout : List String) (code : Nat)
  | crash (exc : String)

/-- The exit code of a run, `none` when the run ended in an uncaught
exception. -/
def MainResult.exitCode : MainResult → Option Nat
  | MainResult.exits _ c => some c
  | MainResult.crash _ => none

/-- `__main__` of `check_okcomputer_health_page.py` after argument parsing,
as a function of the transport outcome: `pycurl.error` prints the (sic)
`UNKOWN` pycurl line and exits 3; a non-200 code prints the non-200 UNKNOWN
line and exits 3; a `ValueError` from `json.loads` prints the non-json
UNKNOWN line (with the raw body) and exits 3; a parsed non-dict top level
crashes on `.items()` with `AttributeError`; otherwise the loop collects
`badList` (possibly crashing), and the run ends with `OK`/exit 0 when
`badList` is empty and the CRITICAL line/exit 2 otherwise.  The parsed
`excludeList` of `args` is never consulted. -/
def health_main (args : Args) (tr : TransportResult) : MainResult :=
  match tr with
  | TransportResult.curlError =>
    MainResult.exits [ "UNKOWN: problem pycurling " ++ build_url args] 3
  | TransportResult.response httpCode rawBody parsed =>
    if httpCode ≠ 200 then
      MainResult.exits [ "UNKNOWN: " ++ build_url args ++ " returned a non 200 status code"] 3
    else
      match parsed with
      | Except.error _ =>
        MainResult.exits
          [ "UNKNOWN: " ++ build_url args ++ " returned a non-json formatted string: " ++ rawBody] 3
      | Except.ok (Json.obj items) =>
        match collectBad items with
        | Except.error exc => MainResult.crash exc
        | Except.ok [] => MainResult.exits [ "OK: All checks pass"] 0
        | Except.ok bad => MainResult.exits [criticalMsg bad] 2
      | Except.ok _ => MainResult.crash "AttributeError: object has no attribute \x27items\x27"

/-!
Embedding of `sendgraph.py`.  The module-level globals read from the Icinga
environment are captured in `IcingaEnv` (each is `none` when the variable is
unset, as `os.getenv(..., None)` yields).  The mail transport and the graph
HTTP fetch are explicit: the fetch is an oracle from URL to outcome, and the
run ends either with the assembled message handed to `smtplib` (SMTP errors
are caught and logged inside `send_graph_email`, so assembly is the
observable outcome) or with an uncaught exception.
-/

/-- The module-level globals of `sendgraph.py`, each `os.getenv(..., None)`. -/
structure IcingaEnv where
  graphite_metric : Option String := none
  warn_threshold : Option String := none
  crit_threshold : Option String := none
  contact_email : Option String := none
  notification_type : Option String := none
  service_state : Option String := none
  host_alias : Option String := none
  host_address : Option String := none
  service_description : Option String := none
  date_time : Option String := none
  action_url : Option String := none
  service_output : Option String := none
  service_duration : Option String := none

/-- The options of `get_options` with their `optparse` defaults (`base_url`
and `from_email` default to `None`, `interval` to `"6hours"`, `width` to
`"800"`; `optparse` stores every given value as a string). -/
structure Options where
  base_url : Option String := none
  interval : String := "6hours"
  width : String := "800"
  from_email : Option String := none

/-- `str.format` of a possibly-`None` value: Python renders `None` as the
four characters `None`. -/
def pyFmt : Option String → String
  | none => "None"
  | some s => s

/-- `get_highlight_color` of `sendgraph.py`: default `fuchsia`, then the
`if`/`elif` chain on `notification_type` and `service_state` (line 117-134).
`none` models an unset environment variable, which compares unequal to every
string. -/
def get_highlight_color (notification_type service_state : Option String) : String :=
  if notification_type = some "ACKNOWLEDGEMENT" then "cyan"
  else if notification_type = some "CUSTOM" then "greenyellow"
  else if service_state = some "CRITICAL" then "lightcoral"
  else if service_state = some "WARNING" then "yellow"
  else if service_state = some "OK" then "springgreen"
  else if service_state = some "UNKNOWN" then "grey"
  else "fuchsia"

/-- `generate_email_body`: the HTML table template of lines 137-156 with the
placeholders substituted. -/
def generate_email_body (bgcolor : String) (env : IcingaEnv) : String :=
  pyFmt env.date_time ++ "<BR><BR>"
    ++ "<TABLE border=\x270\x27>"
    ++ "<TR bgcolor=\x27" ++ bgcolor ++ "\x27><TD><B>Service State:</B></TD>"
    ++ "<TD><B>" ++ pyFmt env.service_state ++ "</B></TD></TR>"
    ++ "<TR><TD>Notification Type:</TD><TD>" ++ pyFmt env.notification_type ++ "</TD></TR>"
    ++ "<TR><TD>Service:</TD><TD>" ++ pyFmt env.service_description ++ "</TD></TR>"
    ++ "<TR><TD>Host:</TD><TD>" ++ pyFmt env.host_alias ++ "</TD></TR>"
    ++ "<TR><TD>Address:</TD><TD>" ++ pyFmt env.host_address ++ "</TD></TR>"
    ++ "<TR><TD>Runbook:</TD><TD>"
    ++ "<A HREF=\x27" ++ pyFmt env.action_url ++ "\x27>" ++ pyFmt env.action_url ++ "</A></TD></TR>"
    ++ "<TR><TD>Problem Duration:</TD><TD>" ++ pyFmt env.service_duration ++ "</TD></TR>"
    ++ "<TR><TD></TD><TD></TD></TR>"
    ++ "<TR><TD>Check Output:</TD><TD>" ++ pyFmt env.service_output ++ "</TD></TR>"
    ++ "</TABLE>"

/-- The subject line built in `main` (lines 223-227):
`"{notification_type} {service_state} {host_alias}/{service_description}"`. -/
def subject_line (env : IcingaEnv) : String :=
  pyFmt env.notification_type ++ " " ++ pyFmt env.service_state ++ " "
    ++ pyFmt env.host_alias ++ "/" ++ pyFmt env.service_description

/-- The base graph URL built at lines 166-172 of `get_graph`. -/
def base_graph_url (opt : Options) (metric : String) : String :=
  pyFmt opt.base_url ++ "/render?lineMode=connected&from=-" ++ opt.interval
    ++ "&width=" ++ opt.width ++ "&target=" ++ metric
    ++ "&bgcolor=FFFFFF&fgcolor=000000"

/-- The warning-threshold overlay target appended at lines 173-175:
`"&target=threshold({0},'warn = {0}','yellow')".format(warn_threshold)`. -/
def warn_target (w : String) : String :=
  "&target=threshold(" ++ w ++ ",\x27warn = " ++ w ++ "\x27,\x27yellow\x27)"

/-- The critical-threshold overlay target appended at lines 176-178:
`"&target=threshold({0}, 'crit = {0}','red')".format(crit_threshold)`. -/
def crit_target (c : String) : String :=
  "&target=threshold(" ++ c ++ ", \x27crit = " ++ c ++ "\x27,\x27red\x27)"

/-- The full `graph_url` of `get_graph`: base URL, then the warning overlay
when a warning threshold is set, then the critical overlay when a critical
threshold is set. -/
def graph_url (opt : Options) (metric : String) (warn crit : Option String) : String :=
  match warn, crit with
  | none, none => base_graph_url opt metric
  | some w, none => base_graph_url opt metric ++ warn_target w
  | none, some c => base_graph_url opt metric ++ crit_target c
  | some w, some c => base_graph_url opt metric ++ warn_target w ++ crit_target c

/-- Outcome of `requests.get(graph_url)`: the call raised (connection error
etc.), or a response arrived with a status code and content bytes. -/
inductive FetchResult where
  | raise (exc : String)
  | response (statusCode : Nat) (content : List Nat)

/-- `get_graph` (lines 159-187): `None` when no metric is configured;
otherwise fetch the graph URL and return `result.content` — the status code
of the response is never inspected, and an exception from `requests.get`
propagates uncaught. -/
def get_graph (env : IcingaEnv) (opt : Options) (fetch : String → FetchResult) :
    Except String (Option (List Nat)) :=
  match env.graphite_metric with
  | none => Except.ok none
  | some m =>
    match fetch (graph_url opt m env.warn_threshold env.crit_threshold) with
    | FetchResult.raise e => Except.error e
    | FetchResult.response _ content => Except.ok (some content)

/-- The URLs `get_graph` requests from the network: none without a metric,
exactly the one graph URL otherwise. -/
def graph_requests (env : IcingaEnv) (opt : Options) : List String :=
  match env.graphite_metric with
  | none => []
  | some m => [graph_url opt m env.warn_threshold env.crit_threshold]

/-- The message assembled by `send_graph_email`: body, optional inline image
part (content bytes; its headers `Content-ID: <graph>` and inline
`graph.png` disposition are fixed by the code), and the address headers. -/
structure MailMessage where
  body : String
  image : Option (List Nat)
  toAddr : String
  sender : Option String
  subject : String

/-- `send_graph_email` (lines 76-115) as message assembly: a `None` body
becomes `"\n"`; when a graph is present the `cid:graph` image tag is appended
to the body and the image part attached.  The SMTP hand-off wraps its errors
in a logged `try`/`except`, so the assembled message is the function's
observable result. -/
def send_graph_email (graph : Option (List Nat)) (subject : String) (sender : Option String)
    (receivers : List String) (body : Option String) : MailMessage :=
  let bodyText := match body with
    | none => "\n"
    | some b => b
  match graph with
  | some g =>
    { body := bodyText ++ "<BR><BR><img src=\"cid:graph\">"
      image := some g
      toAddr := String.intercalate ", " receivers
      sender := sender
      subject := subject }
  | none =>
    { body := bodyText
      image := none
      toAddr := String.intercalate ", " receivers
      sender := sender
      subject := subject }

/-- `main` of `sendgraph.py` (lines 212-233): build color, body and subject,
fetch the graph, split the contact list and hand the assembled message to
`send_graph_email`.  An exception from the graph fetch propagates uncaught
(`Except.error`), as does the `AttributeError` of `contact_email.split(' ')`
when `ICINGA_CONTACTEMAIL` is unset. -/
def sendgraph_main (env : IcingaEnv) (opt : Options) (fetch : String → FetchResult) :
    Except String MailMessage :=
  match get_graph env opt fetch with
  | Except.error e => Except.error e
  | Except.ok graph =>
    match env.contact_email with
    | none => Except.error "AttributeError: \x27NoneType\x27 object has no attribute \x27split\x27"
    | some ce =>
      Except.ok (send_graph_email graph (subject_line env) opt.from_email
        (ce.splitOn " ")
        (some (generate_email_body
          (get_highlight_color env.notification_type env.service_state) env)))

/-! Helper lemmas about the aggregation loop. -/

/-- `pyEqFalse` on a boolean is boolean negation. -/
theorem pyEqFalse_bool (b : Bool) : pyEqFalse (Json.bool b) = !b := rfl

/-- The values that compare Python-equal to `False` are exactly the boolean
`false` and the number `0`. -/
theorem pyEqFalse_iff (s : Json) :
    pyEqFalse s = true ↔ (s = Json.bool false ∨ s = Json.num 0) := by
  cases s with
  | null => simp [pyEqFalse]
  | bool b => cases b <;> simp [pyEqFalse]
  | num n => simp [pyEqFalse]
  | str t => simp [pyEqFalse]
  | arr l => simp [pyEqFalse]
  | obj l => simp [pyEqFalse]

/-- On a report every entry of which is well formed, the aggregation loop
finishes without raising and collects exactly the checks whose `success`
field is the boolean `false`. -/
theorem collectBad_wf (items : List (String × Json))
    (h : items.all wellFormedItem = true) :
    collectBad items = Except.ok (failingChecks items) := by
  induction items with
  | nil => rfl
  | cons p rest ih =>
    rw [List.all_cons, Bool.and_eq_true] at h
    obtain ⟨hp, hrest⟩ := h
    obtain ⟨n, v⟩ := p
    cases v with
    | obj fields =>
      simp only [wellFormedItem, Bool.and_eq_true] at hp
      obtain ⟨hs, hm⟩ := hp
      cases hls : fields.lookup "success" with
      | none => rw [hls] at hs; simp at hs
      | some s =>
        rw [hls] at hs
        cases s with
        | bool b =>
          rw [Option.isSome_iff_exists] at hm
          obtain ⟨m, hlm⟩ := hm
          cases b with
          | false =>
            simp [collectBad, failingChecks, hls, hlm, pyEqFalse, ih hrest, Except.map]
          | true =>
            simp [collectBad, failingChecks, hls, hlm, pyEqFalse, ih hrest]
        | null => simp at hs
        | num nn => simp at hs
        | str t => simp at hs
        | arr l => simp at hs
        | obj l => simp at hs
    | null => simp [wellFormedItem] at hp
    | bool b => simp [wellFormedItem] at hp
    | num nn => simp [wellFormedItem] at hp
    | str t => simp [wellFormedItem] at hp
    | arr l => simp [wellFormedItem] at hp

/-- Whenever the aggregation loop finishes without raising, what it collected
is exactly the checks whose `success` value compares Python-equal to
`False`. -/
theorem collectBad_ok_eq (items : List (String × Json)) (l : List Check)
    (h : collectBad items = Except.ok l) : l = pyBadList items := by
  induction items generalizing l with
  | nil =>
    simp only [collectBad] at h
    cases h
    rfl
  | cons p rest ih =>
    obtain ⟨n, v⟩ := p
    cases v with
    | obj fields =>
      cases hls : fields.lookup "success" with
      | none => simp [collectBad, hls] at h
      | some s =>
        by_cases hpf : pyEqFalse s = true
        · cases hlm : fields.lookup "message" with
          | none => simp [collectBad, hls, hpf, hlm] at h
          | some m =>
            rw [show collectBad ((n, Json.obj fields) :: rest)
                = Except.map (fun l => Check.mk n m s :: l) (collectBad rest) by
              simp [collectBad, hls, hpf, hlm]] at h
            cases hcb : collectBad rest with
            | error e => rw [hcb] at h; simp [Except.map] at h
            | ok l2 =>
              rw [hcb] at h
              simp only [Except.map] at h
              cases h
              simp [pyBadList, hls, hpf, hlm, ih l2 hcb]
        · rw [show collectBad ((n, Json.obj fields) :: rest) = collectBad rest by
            simp [collectBad, hls, hpf]] at h
          simp [pyBadList, hls, hpf, ih l h]
    | null => simp [collectBad] at h
    | bool b => simp [collectBad] at h
    | num nn => simp [collectBad] at h
    | str t => simp [collectBad] at h
    | arr el => simp [collectBad] at h

/-- Every check the aggregation loop collects has a `success` value that
compares Python-equal to `False`. -/
theorem pyBadList_success (items : List (String × Json)) (c : Check)
    (hc : c ∈ pyBadList items) : pyEqFalse c.success = true := by
  induction items with
  | nil => simp [pyBadList] at hc
  | cons p rest ih =>
    obtain ⟨n, v⟩ := p
    cases v with
    | obj fields =>
      cases hls : fields.lookup "success" with
      | none =>
        rw [show pyBadList ((n, Json.obj fields) :: rest) = pyBadList rest by
          simp [pyBadList, hls]] at hc
        exact ih hc
      | some s =>
        by_cases hpf : pyEqFalse s = true
        · cases hlm : fields.lookup "message" with
          | none =>
            rw [show pyBadList ((n, Json.obj fields) :: rest) = pyBadList rest by
              simp [pyBadList, hls, hpf, hlm]] at hc
            exact ih hc
          | some m =>
            rw [show pyBadList ((n, Json.obj fields) :: rest)
                = Check.mk n m s :: pyBadList rest by
              simp [pyBadList, hls, hpf, hlm]] at hc
            rcases List.mem_cons.mp hc with rfl | hmem
            · exact hpf
            · exact ih hmem
        · rw [show pyBadList ((n, Json.obj fields) :: rest) = pyBadList rest by
            simp [pyBadList, hls, hpf]] at hc
          exact ih hc
    | null => exact ih hc
    | bool b => exact ih hc
    | num nn => exact ih hc
    | str t => exact ih hc
    | arr el => exact ih hc

/-- Prepending an entry to the report can only extend what the loop
collects. -/
theorem pyBadList_sub (p : String × Json) (rest : List (String × Json)) :
    pyBadList rest ⊆ pyBadList (p :: rest) := by
  intro c hc
  obtain ⟨n, v⟩ := p
  cases v with
  | obj fields =>
    cases hls : fields.lookup "success" with
    | none =>
      rw [show pyBadList ((n, Json.obj fields) :: rest) = pyBadList rest by
        simp [pyBadList, hls]]
      exact hc
    | some s =>
      by_cases hpf : pyEqFalse s = true
      · cases hlm : fields.lookup "message" with
        | none =>
          rw [show pyBadList ((n, Json.obj fields) :: rest) = pyBadList rest by
            simp [pyBadList, hls, hpf, hlm]]
          exact hc
        | some m =>
          rw [show pyBadList ((n, Json.obj fields) :: rest)
              = Check.mk n m s :: pyBadList rest by
            simp [pyBadList, hls, hpf, hlm]]
          exact List.mem_cons_of_mem _ hc
      · rw [show pyBadList ((n, Json.obj fields) :: rest) = pyBadList rest by
          simp [pyBadList, hls, hpf]]
        exact hc
  | null => exact hc
  | bool b => exact hc
  | num nn => exact hc
  | str t => exact hc
  | arr el => exact hc

/-- Every report entry that is a dict whose `success` value compares
Python-equal to `False` and whose `message` key is present contributes its
check to what the loop collects. -/
theorem pyBadList_mem_of (items : List (String × Json)) (n : String)
    (fields : List (String × Json)) (m s : Json)
    (hin : (n, Json.obj fields) ∈ items)
    (hs : fields.lookup "success" = some s) (hm : fields.lookup "message" = some m)
    (hpf : pyEqFalse s = true) : Check.mk n m s ∈ pyBadList items := by
  induction items with
  | nil => simp at hin
  | cons p rest ih =>
    rcases List.mem_cons.mp hin with heq | hmem
    · rw [← heq]
      rw [show pyBadList ((n, Json.obj fields) :: rest)
          = Check.mk n m s :: pyBadList rest by
        simp [pyBadList, hs, hpf, hm]]
      exact List.mem_cons_self _ _
    · exact pyBadList_sub p rest (ih hmem)

/-- On a 200 response with a parsed dict the run is determined by the
aggregation loop. -/
theorem health_main_200 (args : Args) (rawBody : String) (items : List (String × Json)) :
    health_main args (TransportResult.response 200 rawBody (Except.ok (Json.obj items)))
      = match collectBad items with
        | Except.error exc => MainResult.crash exc
        | Except.ok [] => MainResult.exits [ "OK: All checks pass"] 0
        | Except.ok bad => MainResult.exits [criticalMsg bad] 2 := rfl

/-! Concrete inputs used by the claims about the health poller. -/

/-- The end-to-end report of the spec: a passing `db` check and a failing
`cache` check. -/
def itemsDbCache : List (String × Json) :=
  [( "db", Json.obj [( "message", Json.str "ok"), ( "success", Json.bool true)]),
   ( "cache", Json.obj [( "message", Json.str "timeout"), ( "success", Json.bool false)])]

/-- The raw body whose `json.loads` outcome is `itemsDbCache`. -/
def rawDbCache : String :=
  "\x7b\"db\":\x7b\"message\":\"ok\",\"success\":true\x7d,\"cache\":\x7b\"message\":\"timeout\",\"success\":false\x7d\x7d"

/-- A report whose single check carries a `success` value that is neither
`true` nor Python-equal to `False`. -/
def itemsNope : List (String × Json) :=
  [( "flaky", Json.obj [( "message", Json.str "m"), ( "success", Json.str "nope")])]

/-- The raw body whose `json.loads` outcome is `itemsNope`. -/
def rawNope : String :=
  "\x7b\"flaky\":\x7b\"message\":\"m\",\"success\":\"nope\"\x7d\x7d"

/-- The exclusion test report of the spec: only the default-excluded `stub`
check, failing. -/
def itemsStub : List (String × Json) :=
  [( "stub", Json.obj [( "success", Json.bool false), ( "message", Json.str "x")])]

/-- The raw body whose `json.loads` outcome is `itemsStub`. -/
def rawStub : String :=
  "\x7b\"stub\": \x7b\"success\": false, \"message\": \"x\"\x7d\x7d"


/-- C1: on a successfully fetched (HTTP 200) and parsed well-formed health
report, the poller prints `OK: All checks pass` and exits 0 iff the set of
failing checks is empty, and otherwise prints the CRITICAL line listing each
failing check rendered by `Check.__str__` and exits 2 — never a WARNING
outcome; in particular the db/cache end-to-end input yields exit 2 and
exactly the spec's CRITICAL line. -/
theorem C1_claim (args : Args) (rawBody : String) (items : List (String × Json))
    (hwf : items.all wellFormedItem = true) :
    (health_main args (TransportResult.response 200 rawBody (Except.ok (Json.obj items)))
        = MainResult.exits [ "OK: All checks pass"] 0 ↔ failingChecks items = [])
    ∧ (failingChecks items ≠ [] →
        health_main args (TransportResult.response 200 rawBody (Except.ok (Json.obj items)))
          = MainResult.exits [criticalMsg (failingChecks items)] 2)
    ∧ health_main defaultArgs (TransportResult.response 200 rawDbCache (Except.ok (Json.obj itemsDbCache)))
        = MainResult.exits
            [ "CRITICAL: The following checks are failing, cache : \x7bmessage: timeout, success: False\x7d"] 2 := by
  have hconc : health_main defaultArgs
      (TransportResult.response 200 rawDbCache (Except.ok (Json.obj itemsDbCache)))
      = MainResult.exits [criticalMsg [Check.mk "cache" (Json.str "timeout") (Json.bool false)]] 2 := by rfl
  rw [hconc]
  have hlit : criticalMsg [Check.mk "cache" (Json.str "timeout") (Json.bool false)]
      = "CRITICAL: The following checks are failing, cache : \x7bmessage: timeout, success: False\x7d" := by
    simp [criticalMsg, Check.str, pyStr, pyRepr]
  rw [hlit]
  have hrun := health_main_200 args rawBody items
  rw [collectBad_wf items hwf] at hrun
  cases hfc : failingChecks items with
  | nil =>
    rw [hfc] at hrun
    exact ⟨iff_of_true hrun rfl, fun hne => absurd rfl hne, rfl⟩
  | cons c cs =>
    rw [hfc] at hrun
    refine ⟨?_, fun _ => hrun, rfl⟩
    rw [hrun]
    simp

/-- C1 witness: the claim applied to the concrete db/cache report. -/
theorem C1_witness :
    (health_main defaultArgs (TransportResult.response 200 rawDbCache (Except.ok (Json.obj itemsDbCache)))
        = MainResult.exits [ "OK: All checks pass"] 0 ↔ failingChecks itemsDbCache = [])
    ∧ (failingChecks itemsDbCache ≠ [] →
        health_main defaultArgs (TransportResult.response 200 rawDbCache (Except.ok (Json.obj itemsDbCache)))
          = MainResult.exits [criticalMsg (failingChecks itemsDbCache)] 2)
    ∧ health_main defaultArgs (TransportResult.response 200 rawDbCache (Except.ok (Json.obj itemsDbCache)))
        = MainResult.exits
            [ "CRITICAL: The following checks are failing, cache : \x7bmessage: timeout, success: False\x7d"] 2 :=
  C1_claim defaultArgs rawDbCache itemsDbCache (by rfl)

/-- C2 counterexample: a check whose `success` value `"nope"` differs from
`true` is nevertheless not aggregated — the loop collects an empty failing
set and the poller reports OK and exits 0, refuting "a check is placed in
the failing set exactly when its `success` field is not equal to true". -/
theorem C2_counterexample :
    Json.str "nope" ≠ Json.bool true
    ∧ collectBad itemsNope = Except.ok []
    ∧ health_main defaultArgs (TransportResult.response 200 rawNope (Except.ok (Json.obj itemsNope)))
        = MainResult.exits [ "OK: All checks pass"] 0 :=
  ⟨fun h => Json.noConfusion h, rfl, rfl⟩

/-- C2 (amended): whenever the aggregation loop finishes without raising, a
check is placed in the failing set exactly when its `success` value compares
Python-equal to `False` — that is, when it is the boolean `false` or the
number `0`: the collected list is exactly `pyBadList`, every collected check
has a `success` value Python-equal to `False`, every report entry with such a
`success` value (and a `message`) is collected, and values merely different
from `true` (strings, `None`, other numbers, containers) are not
aggregated. -/
theorem C2_amended_claim (items : List (String × Json)) (l : List Check)
    (n : String) (fields : List (String × Json)) (m s : Json)
    (h : collectBad items = Except.ok l) :
    l = pyBadList items
    ∧ (∀ c ∈ l, pyEqFalse c.success = true)
    ∧ ((n, Json.obj fields) ∈ items → fields.lookup "success" = some s →
        fields.lookup "message" = some m → pyEqFalse s = true → Check.mk n m s ∈ l)
    ∧ (pyEqFalse s = true ↔ (s = Json.bool false ∨ s = Json.num 0)) := by
  have hl := collectBad_ok_eq items l h
  subst hl
  exact ⟨rfl, fun c hc => pyBadList_success items c hc,
    fun hin hs hm hpf => pyBadList_mem_of items n fields m s hin hs hm hpf,
    pyEqFalse_iff s⟩

/-- C2 witness: the amended claim applied to the stub report, whose single
check (success the boolean `false`) really is collected, so the membership
direction fires non-vacuously. -/
theorem C2_witness :
    [Check.mk "stub" (Json.str "x") (Json.bool false)] = pyBadList itemsStub
    ∧ (∀ c ∈ [Check.mk "stub" (Json.str "x") (Json.bool false)], pyEqFalse c.success = true)
    ∧ (( "stub", Json.obj [( "success", Json.bool false), ( "message", Json.str "x")]) ∈ itemsStub →
        List.lookup "success" [( "success", Json.bool false), ( "message", Json.str "x")]
          = some (Json.bool false) →
        List.lookup "message" [( "success", Json.bool false), ( "message", Json.str "x")]
          = some (Json.str "x") →
        pyEqFalse (Json.bool false) = true →
        Check.mk "stub" (Json.str "x") (Json.bool false)
          ∈ [Check.mk "stub" (Json.str "x") (Json.bool false)])
    ∧ (pyEqFalse (Json.bool false) = true
        ↔ (Json.bool false = Json.bool false ∨ Json.bool false = Json.num 0)) :=
  C2_amended_claim itemsStub [Check.mk "stub" (Json.str "x") (Json.bool false)]
    "stub" [( "success", Json.bool false), ( "message", Json.str "x")]
    (Json.str "x") (Json.bool false) rfl

/-- C3: the exclusion list is parsed (default `["stub"]`, `-e` appends) but
the aggregation loop never consults it: the report containing only the
failing `stub` check yields CRITICAL and exit 2 under the default exclusions,
not OK/exit 0 as claimed, and the run outcome is identical for any two
exclusion lists. -/
theorem C3_codebug :
    parse_args [] = defaultArgs
    ∧ defaultArgs.excludeList = [ "stub"]
    ∧ (∀ (host : String) (port : Int) (sslv : Bool) (upath : String)
        (ex1 ex2 : List String) (tr : TransportResult),
        health_main (Args.mk host port sslv upath ex1) tr
          = health_main (Args.mk host port sslv upath ex2) tr)
    ∧ health_main defaultArgs (TransportResult.response 200 rawStub (Except.ok (Json.obj itemsStub)))
        = MainResult.exits
            [ "CRITICAL: The following checks are failing, stub : \x7bmessage: x, success: False\x7d"] 2 := by
  refine ⟨rfl, rfl, ?_, ?_⟩
  · intro host port sslv upath ex1 ex2 tr
    cases tr <;> rfl
  · have h1 : health_main defaultArgs (TransportResult.response 200 rawStub (Except.ok (Json.obj itemsStub)))
        = MainResult.exits [criticalMsg [Check.mk "stub" (Json.str "x") (Json.bool false)]] 2 := by rfl
    rw [h1]
    simp [criticalMsg, Check.str, pyStr, pyRepr]

/-- C4 counterexample: a response body that parses to a non-object top level
(a JSON array) does not yield an UNKNOWN exit 3 — the process crashes on
`.items()` with an uncaught `AttributeError` (no exit code reached). -/
theorem C4_counterexample :
    health_main defaultArgs (TransportResult.response 200 "[1, 2]" (Except.ok (Json.arr [Json.num 1, Json.num 2])))
      = MainResult.crash "AttributeError: object has no attribute \x27items\x27"
    ∧ MainResult.exitCode
        (health_main defaultArgs (TransportResult.response 200 "[1, 2]" (Except.ok (Json.arr [Json.num 1, Json.num 2]))))
      = none :=
  ⟨rfl, rfl⟩

/-- C4 (amended): only a `json.loads` failure (`ValueError`) is converted to
the UNKNOWN outcome (exit 3 with a descriptive line); a body that parses to a
non-object top level crashes the process with `AttributeError`, and a check
entry whose dict lacks the `success` key crashes it with `KeyError`. -/
theorem C4_amended_claim (args : Args) (rawBody : String) (j : Json) (n : String)
    (fields rest : List (String × Json))
    (hnotobj : ∀ l, j ≠ Json.obj l) (hnos : fields.lookup "success" = none) :
    health_main args (TransportResult.response 200 rawBody (Except.error ()))
      = MainResult.exits
          [ "UNKNOWN: " ++ build_url args ++ " returned a non-json formatted string: " ++ rawBody] 3
    ∧ health_main args (TransportResult.response 200 rawBody (Except.ok j))
      = MainResult.crash "AttributeError: object has no attribute \x27items\x27"
    ∧ health_main args (TransportResult.response 200 rawBody (Except.ok (Json.obj ((n, Json.obj fields) :: rest))))
      = MainResult.crash "KeyError: \x27success\x27" := by
  refine ⟨rfl, ?_, ?_⟩
  · cases j with
    | obj l => exact absurd rfl (hnotobj l)
    | null => rfl
    | bool b => rfl
    | num nn => rfl
    | str s => rfl
    | arr l => rfl
  · rw [health_main_200]
    simp [collectBad, hnos]

/-- C4 witness: the amended claim applied to an empty-array body and a
single-entry report whose check dict has no `success` key. -/
theorem C4_witness :
    health_main defaultArgs (TransportResult.response 200 "[]" (Except.error ()))
      = MainResult.exits
          [ "UNKNOWN: " ++ build_url defaultArgs ++ " returned a non-json formatted string: " ++ "[]"] 3
    ∧ health_main defaultArgs (TransportResult.response 200 "[]" (Except.ok (Json.arr [])))
      = MainResult.crash "AttributeError: object has no attribute \x27items\x27"
    ∧ health_main defaultArgs
        (TransportResult.response 200 "[]" (Except.ok (Json.obj [( "a", Json.obj [])])))
      = MainResult.crash "KeyError: \x27success\x27" :=
  C4_amended_claim defaultArgs "[]" (Json.arr []) "a" [] []
    (fun _ h => Json.noConfusion h) rfl

/-- C5: any transport-level failure or non-200 response exits 3 without the
body being parsed or aggregated — but on the `pycurl.error` path the printed
line is the misspelled `UNKOWN: problem pycurling <url>`, whose first seven
characters are not `UNKNOWN`; the non-200 path does print an UNKNOWN line,
identical for every body. -/
theorem C5_codebug :
    health_main defaultArgs TransportResult.curlError
      = MainResult.exits [ "UNKOWN: problem pycurling http://localhost:80/health_checks"] 3
    ∧ (String.data "UNKOWN: problem pycurling http://localhost:80/health_checks").take 7
        ≠ String.data "UNKNOWN"
    ∧ (∀ (rawBody : String) (parsed : Except Unit Json),
        health_main defaultArgs (TransportResult.response 500 rawBody parsed)
          = MainResult.exits
              [ "UNKNOWN: http://localhost:80/health_checks returned a non 200 status code"] 3) :=
  ⟨rfl, by decide, fun rawBody parsed => rfl⟩

/-! Concrete inputs used by the claims about the alert composer. -/

/-- An alert context with a configured graphite metric and a contact. -/
def envGraph : IcingaEnv :=
  { graphite_metric := some "stats.gauges.count", contact_email := some "oncall@example.com" }

/-- An alert context without a graphite metric. -/
def envNoMetric : IcingaEnv := { contact_email := some "oncall@example.com" }

/-- Options with a graphing base URL and a sender. -/
def optGraph : Options :=
  { base_url := some "http://graphite:80", from_email := some "alerts@example.com" }

/-- The `optparse` defaults. -/
def optDefault : Options := {}

/-- A network oracle on which every graph fetch raises a connection error. -/
def fetchConnErr : String → FetchResult :=
  fun _ => FetchResult.raise "requests.exceptions.ConnectionError"

/-- A network oracle answering every graph fetch with HTTP 500 and an error
page as content. -/
def fetch500 : String → FetchResult :=
  fun _ => FetchResult.response 500 [60, 104, 116, 109, 108, 62]

/-- A network oracle that would raise if it were consulted at all. -/
def fetchUnused : String → FetchResult :=
  fun _ => FetchResult.raise "never called"

/-- C6: the highlight-color function is a priority table: ACKNOWLEDGEMENT
yields the acknowledged color and CUSTOM the custom color for every service
state, taking precedence over state colors; otherwise the four states
CRITICAL, WARNING, OK, UNKNOWN map to four distinct colors; any other
combination yields the fallback color. -/
theorem C6_claim (nt ss : Option String)
    (h1 : nt ≠ some "ACKNOWLEDGEMENT") (h2 : nt ≠ some "CUSTOM")
    (h3 : ss ≠ some "CRITICAL") (h4 : ss ≠ some "WARNING")
    (h5 : ss ≠ some "OK") (h6 : ss ≠ some "UNKNOWN") :
    (∀ s : Option String, get_highlight_color (some "ACKNOWLEDGEMENT") s = "cyan")
    ∧ (∀ s : Option String, get_highlight_color (some "CUSTOM") s = "greenyellow")
    ∧ get_highlight_color nt (some "CRITICAL") = "lightcoral"
    ∧ get_highlight_color nt (some "WARNING") = "yellow"
    ∧ get_highlight_color nt (some "OK") = "springgreen"
    ∧ get_highlight_color nt (some "UNKNOWN") = "grey"
    ∧ [( "lightcoral" : String), "yellow", "springgreen", "grey"].Nodup
    ∧ get_highlight_color nt ss = "fuchsia" := by
  refine ⟨fun s => by simp [get_highlight_color], fun s => by simp [get_highlight_color],
    ?_, ?_, ?_, ?_, by decide, ?_⟩ <;>
    simp [get_highlight_color, h1, h2, h3, h4, h5, h6]

/-- C6 witness: the claim applied at a normal notification of an
unrecognised state. -/
theorem C6_witness :
    (∀ s : Option String, get_highlight_color (some "ACKNOWLEDGEMENT") s = "cyan")
    ∧ (∀ s : Option String, get_highlight_color (some "CUSTOM") s = "greenyellow")
    ∧ get_highlight_color (some "PROBLEM") (some "CRITICAL") = "lightcoral"
    ∧ get_highlight_color (some "PROBLEM") (some "WARNING") = "yellow"
    ∧ get_highlight_color (some "PROBLEM") (some "OK") = "springgreen"
    ∧ get_highlight_color (some "PROBLEM") (some "UNKNOWN") = "grey"
    ∧ [( "lightcoral" : String), "yellow", "springgreen", "grey"].Nodup
    ∧ get_highlight_color (some "PROBLEM") (some "GARBAGE") = "fuchsia" :=
  C6_claim (some "PROBLEM") (some "GARBAGE") (by decide) (by decide) (by decide)
    (by decide) (by decide) (by decide)

/-- C7 counterexample: with a metric configured, a connection error from the
graph fetch makes `main` terminate with an uncaught exception — no email is
handed to the mail transport — and a 500 response is not degraded to the
no-graph case: its body bytes are embedded as the graph image. -/
theorem C7_counterexample :
    sendgraph_main envGraph optGraph fetchConnErr
      = Except.error "requests.exceptions.ConnectionError"
    ∧ (sendgraph_main envGraph optGraph fetchConnErr).toOption = none
    ∧ Option.map MailMessage.image (sendgraph_main envGraph optGraph fetch500).toOption
        = some (some [60, 104, 116, 109, 108, 62]) :=
  ⟨rfl, rfl, rfl⟩

/-- C7 (amended): with a metric configured, an exception raised by the graph
fetch propagates out of `main` and aborts the notification before any email
is assembled or dispatched; a response — of any status code, success or not —
is never detected as a failure: its content bytes are embedded as the graph
image of the email that is then assembled. -/
theorem C7_amended_claim (env : IcingaEnv) (opt : Options) (metric ce exc : String)
    (status : Nat) (content : List Nat) (fetchE fetchR : String → FetchResult)
    (hm : env.graphite_metric = some metric) (hce : env.contact_email = some ce)
    (hfe : fetchE (graph_url opt metric env.warn_threshold env.crit_threshold)
        = FetchResult.raise exc)
    (hfr : fetchR (graph_url opt metric env.warn_threshold env.crit_threshold)
        = FetchResult.response status content) :
    sendgraph_main env opt fetchE = Except.error exc
    ∧ Option.map MailMessage.image (sendgraph_main env opt fetchR).toOption
        = some (some content) := by
  constructor
  · simp [sendgraph_main, get_graph, hm, hfe]
  · simp [sendgraph_main, get_graph, send_graph_email, Except.toOption, hm, hfr, hce]

/-- C7 witness: the amended claim applied to the concrete metric-bearing
context, a raising oracle and a 500 oracle. -/
theorem C7_witness :
    sendgraph_main envGraph optGraph fetchConnErr
      = Except.error "requests.exceptions.ConnectionError"
    ∧ Option.map MailMessage.image (sendgraph_main envGraph optGraph fetch500).toOption
        = some (some [60, 104, 116, 109, 108, 62]) :=
  C7_amended_claim envGraph optGraph "stats.gauges.count" "oncall@example.com"
    "requests.exceptions.ConnectionError" 500 [60, 104, 116, 109, 108, 62]
    fetchConnErr fetch500 rfl rfl rfl rfl

set_option maxRecDepth 10000 in
/-- The plain generated body of the metric-less concrete context holds no
`cid:graph` reference. -/
theorem no_cid_in_plain_body :
    ¬ (String.data "cid:graph" <:+: String.data
        (generate_email_body
          (get_highlight_color envNoMetric.notification_type envNoMetric.service_state)
          envNoMetric)) := by
  decide

/-- C8: with no graphite metric configured, no graph URL is built and no
fetch is attempted, this is not an error, the assembled email's body is
exactly the generated HTML body with nothing appended and it carries no
attached image part; concretely, the body contains no `cid:graph`
reference. -/
theorem C8_claim (env : IcingaEnv) (opt : Options) (fetch : String → FetchResult) (ce : String)
    (hm : env.graphite_metric = none) (hce : env.contact_email = some ce) :
    graph_requests env opt = []
    ∧ get_graph env opt fetch = Except.ok none
    ∧ Option.map MailMessage.image (sendgraph_main env opt fetch).toOption = some none
    ∧ Option.map MailMessage.body (sendgraph_main env opt fetch).toOption
        = some (generate_email_body
            (get_highlight_color env.notification_type env.service_state) env)
    ∧ ¬ (String.data "cid:graph" <:+: String.data
          (generate_email_body
            (get_highlight_color envNoMetric.notification_type envNoMetric.service_state)
            envNoMetric)) := by
  refine ⟨?_, ?_, ?_, ?_, ?_⟩
  · simp [graph_requests, hm]
  · simp [get_graph, hm]
  · simp [sendgraph_main, get_graph, send_graph_email, Except.toOption, hm, hce]
  · simp [sendgraph_main, get_graph, send_graph_email, Except.toOption, hm, hce]
  · exact no_cid_in_plain_body

/-- C8 witness: the claim applied to the concrete metric-less context. -/
theorem C8_witness :
    graph_requests envNoMetric optDefault = []
    ∧ get_graph envNoMetric optDefault fetchUnused = Except.ok none
    ∧ Option.map MailMessage.image (sendgraph_main envNoMetric optDefault fetchUnused).toOption
        = some none
    ∧ Option.map MailMessage.body (sendgraph_main envNoMetric optDefault fetchUnused).toOption
        = some (generate_email_body
            (get_highlight_color envNoMetric.notification_type envNoMetric.service_state)
            envNoMetric)
    ∧ ¬ (String.data "cid:graph" <:+: String.data
          (generate_email_body
            (get_highlight_color envNoMetric.notification_type envNoMetric.service_state)
            envNoMetric)) :=
  C8_claim envNoMetric optDefault fetchUnused "oncall@example.com" rfl rfl

/-- C9: graph request construction is a deterministic pure function of
metric, interval, width and thresholds, and when both thresholds are
configured the URL contains the labeled overlay targets
`'warn = {value}'` in yellow and `'crit = {value}'` in red — two distinct
colors. -/
theorem C9_claim (opt : Options) (metric w c : String) :
    graph_url opt metric (some w) (some c) = graph_url opt metric (some w) (some c)
    ∧ (∃ p q, graph_url opt metric (some w) (some c)
        = p ++ ( "&target=threshold(" ++ w ++ ",\x27warn = " ++ w ++ "\x27,\x27yellow\x27)") ++ q)
    ∧ (∃ p, graph_url opt metric (some w) (some c)
        = p ++ ( "&target=threshold(" ++ c ++ ", \x27crit = " ++ c ++ "\x27,\x27red\x27)"))
    ∧ ( "yellow" : String) ≠ "red" :=
  ⟨rfl,
    ⟨base_graph_url opt metric, crit_target c, rfl⟩,
    ⟨base_graph_url opt metric ++ warn_target w, rfl⟩,
    by decide⟩

/-- C10: the highlight-color function is total over both inputs including
absent (`None`) values: it always returns one of the seven fixed color
strings, and returns `fuchsia` precisely when no earlier rule of the chain
matches. -/
theorem C10_claim (nt ss : Option String) :
    (get_highlight_color nt ss = "cyan" ∨ get_highlight_color nt ss = "greenyellow"
      ∨ get_highlight_color nt ss = "lightcoral" ∨ get_highlight_color nt ss = "yellow"
      ∨ get_highlight_color nt ss = "springgreen" ∨ get_highlight_color nt ss = "grey"
      ∨ get_highlight_color nt ss = "fuchsia")
    ∧ (get_highlight_color nt ss = "fuchsia"
        ↔ (nt ≠ some "ACKNOWLEDGEMENT" ∧ nt ≠ some "CUSTOM" ∧ ss ≠ some "CRITICAL"
            ∧ ss ≠ some "WARNING" ∧ ss ≠ some "OK" ∧ ss ≠ some "UNKNOWN")) := by
  unfold get_highlight_color
  split_ifs with h1 h2 h3 h4 h5 h6 <;> simp_all
